import Mathlib

/-!
Verification of the mvp-developer-toolkit job-orchestration scripts.

Shallow embedding of the three Python sources:
  * docker/scripts/update-job-status.py  (job status updater)
  * lambda/update-mvp-status.py          (completion notification handler)
  * docker/scripts/fetch-job-data.py     (job fetch and render)

Store calls are modelled as explicit data (lists of issued operations /
filesystem effects); timestamps are passed in as parameters since the
scripts read the current clock.
-/

namespace MvpToolkit

/-- Python truthiness of an optional string: None and the empty string are
falsy, every other string is truthy (mirrors `if status:` etc.). -/
def pyTruthy : Option String → Bool
  | none => false
  | some s => s != ""

/-- Value placed at an attribute path by an update expression.  `errJson`
models the JSON-encoded error blob the docker script stores under
`lastError`; `errAppend` models the single `{timestamp, message, step}`
entry the lambda appends to the `errors` list via `list_append`. -/
inductive AttrValue where
  | str (s : String)
  | int (n : Int)
  | errJson (timestamp message step : String)
  | errAppend (timestamp message step : String)
deriving DecidableEq, Repr

/-- The optional inputs of `update_job_status` in update-job-status.py. -/
structure StatusUpdateArgs where
  status : Option String
  step : Option String
  progress : Option Int
  repo_url : Option String
  repo_name : Option String
  staging_url : Option String
  production_url : Option String
  error : Option String
deriving DecidableEq, Repr

/-- The (attribute path, value) assignments accumulated by
`update_job_status` (update-job-status.py lines 15-68), in source order:
updatedAt is always appended first, then each truthy optional field adds
its assignment, with startedAt / completedAt derived from the status. -/
def update_job_status_parts (now : String) (a : StatusUpdateArgs) :
    List (String × AttrValue) :=
  [("updatedAt", .str now)]
  ++ (if pyTruthy a.status then
        ("status", .str (a.status.getD "")) ::
          (if a.status.getD "" = "IN_PROGRESS" then [("startedAt", .str now)]
           else if a.status.getD "" = "COMPLETED" then [("completedAt", .str now)]
           else [])
      else [])
  ++ (if pyTruthy a.step then [("currentStep", .str (a.step.getD ""))] else [])
  ++ (if a.progress.isSome then [("progress", .int (a.progress.getD 0))] else [])
  ++ (if pyTruthy a.repo_url then [("githubRepo", .str (a.repo_url.getD ""))] else [])
  ++ (if pyTruthy a.repo_name then [("repoName", .str (a.repo_name.getD ""))] else [])
  ++ (if pyTruthy a.staging_url then [("stagingUrl", .str (a.staging_url.getD ""))] else [])
  ++ (if pyTruthy a.production_url then [("vercelUrl", .str (a.production_url.getD ""))] else [])
  ++ (if pyTruthy a.error then
        [("lastError",
          .errJson now (a.error.getD "")
            (if pyTruthy a.step then a.step.getD "" else "unknown"))]
      else [])

/-- Number of `update_item` calls issued by `update_job_status`: one if the
accumulated expression part list is non-empty, none otherwise
(update-job-status.py line 70). -/
def update_job_status_calls (now : String) (a : StatusUpdateArgs) : Nat :=
  if update_job_status_parts now a = [] then 0 else 1

/-- Spec-side description of the attribute paths an update may touch:
the paths corresponding to the supplied fields, plus the status-derived
flat-shape fields (startedAt for IN_PROGRESS, completedAt for COMPLETED,
updatedAt always).  Written from the spec wording of claim C4, to be
compared with the paths actually produced by the source embedding. -/
def suppliedAndDerivedPaths (a : StatusUpdateArgs) : List String :=
  ["updatedAt"]
  ++ (if pyTruthy a.status then
        "status" ::
          (if a.status.getD "" = "IN_PROGRESS" then ["startedAt"]
           else if a.status.getD "" = "COMPLETED" then ["completedAt"]
           else [])
      else [])
  ++ (if pyTruthy a.step then ["currentStep"] else [])
  ++ (if a.progress.isSome then ["progress"] else [])
  ++ (if pyTruthy a.repo_url then ["githubRepo"] else [])
  ++ (if pyTruthy a.repo_name then ["repoName"] else [])
  ++ (if pyTruthy a.staging_url then ["stagingUrl"] else [])
  ++ (if pyTruthy a.production_url then ["vercelUrl"] else [])
  ++ (if pyTruthy a.error then ["lastError"] else [])

/-- A call of the status updater with no optional field supplied. -/
def noOptionalArgs : StatusUpdateArgs :=
  { status := none, step := none, progress := none, repo_url := none,
    repo_name := none, staging_url := none, production_url := none,
    error := none }

/-- A parsed SNS message payload of the completion notification handler
(lambda/update-mvp-status.py).  Every field is optional; `none` models a
key absent from the JSON payload. -/
structure SnsMessage where
  jobId : Option String := none
  status : Option String := none
  repoUrl : Option String := none
  productionUrl : Option String := none
  stagingUrl : Option String := none
  batchJobId : Option String := none
  vercelProjectId : Option String := none
  vercelDeploymentId : Option String := none
  projectId : Option String := none
  userId : Option String := none
  businessName : Option String := none
  error : Option String := none
  currentStep : Option String := none
deriving DecidableEq, Repr

/-- The (attribute path, value) assignments accumulated by
`update_job_record` (update-mvp-status.py lines 55-111), in source order:
status and timestamps.completedAt are always appended; progress and
currentStep when status is "completed"; urls.* and resources.* paths for
each truthy message field; an `errors` list-append entry when status is
"failed" and an error message is present. -/
def update_job_record_parts (now : String) (msg : SnsMessage) :
    List (String × AttrValue) :=
  let status := msg.status.getD "completed"
  [("status", .str status), ("timestamps.completedAt", .str now)]
  ++ (if status = "completed" then
        [("progress", .int 100), ("currentStep", .str "COMPLETED")]
      else [])
  ++ (if pyTruthy msg.repoUrl then
        [("urls.codeRepository", .str (msg.repoUrl.getD ""))] else [])
  ++ (if pyTruthy msg.productionUrl then
        [("urls.production", .str (msg.productionUrl.getD ""))] else [])
  ++ (if pyTruthy msg.stagingUrl then
        [("urls.staging", .str (msg.stagingUrl.getD ""))] else [])
  ++ (if pyTruthy msg.batchJobId then
        [("resources.batchJobId", .str (msg.batchJobId.getD ""))] else [])
  ++ (if pyTruthy msg.vercelProjectId then
        [("resources.vercel.projectId", .str (msg.vercelProjectId.getD ""))] else [])
  ++ (if pyTruthy msg.vercelDeploymentId then
        [("resources.vercel.deploymentId", .str (msg.vercelDeploymentId.getD ""))] else [])
  ++ (if status = "failed" && pyTruthy msg.error then
        [("errors",
          .errAppend now (msg.error.getD "")
            (msg.currentStep.getD "unknown"))]
      else [])

/-- An attribute path of the nested record shape is a dotted path such as
`timestamps.completedAt`; flat top-level attributes contain no dot. -/
def isNestedPath (p : String) : Bool := p.data.contains '.'

/-- The urls map written into every Status Record
(update-mvp-status.py lines 138-142): exactly the keys production,
staging and repository; an absent message URL is stored as null (`none`). -/
structure StatusUrls where
  production : Option String
  staging : Option String
  repository : Option String
deriving DecidableEq, Repr

/-- The denormalized Status Record put into the status table by
`update_status_record` (update-mvp-status.py lines 133-155). -/
structure StatusRecord where
  projectId : String
  jobId : String
  status : String
  updatedAt : String
  urls : StatusUrls
  userId : Option String
  businessName : Option String
  ttl : Int
deriving DecidableEq, Repr

/-- `update_status_record` (update-mvp-status.py lines 122-158): builds the
Status Record from the message, or returns `none` (no store call) when
jobId, or projectId with its jobId fallback, is falsy.  `nowIso` is the
ISO timestamp and `nowEpoch` the epoch-seconds clock reading. -/
def update_status_record (nowIso : String) (nowEpoch : Int)
    (msg : SnsMessage) : Option StatusRecord :=
  let job_id := msg.jobId
  let project_id := match msg.projectId with
    | some p => some p
    | none => job_id
  if pyTruthy job_id && pyTruthy project_id then
    some
      { projectId := project_id.getD ""
        jobId := job_id.getD ""
        status := msg.status.getD "completed"
        updatedAt := nowIso
        urls :=
          { production := msg.productionUrl
            staging := msg.stagingUrl
            repository := msg.repoUrl }
        userId := if pyTruthy msg.userId then msg.userId else none
        businessName := if pyTruthy msg.businessName then msg.businessName else none
        ttl := nowEpoch + 30 * 24 * 60 * 60 }
  else
    none

/-- A full-item put into the status table: the row keyed by the record's
projectId is replaced wholesale; all other rows are untouched. -/
def put_status_item (table : String → Option StatusRecord)
    (r : StatusRecord) : String → Option StatusRecord :=
  fun k => if k = r.projectId then some r else table k

/-- A store operation issued by the notification handler. -/
inductive StoreOp where
  | updateJob (jobId : String) (parts : List (String × AttrValue))
  | putStatus (r : StatusRecord)
deriving DecidableEq, Repr

/-- One inbound batch record as seen by `lambda_handler`: its
EventSource tag and the result of `json.loads` on its Sns Message
(`Except.error` models a raised parse error). -/
structure SnsEnvelope where
  eventSource : String
  payload : Except String SnsMessage

/-- The result object returned by `lambda_handler`. -/
structure HandlerResult where
  statusCode : Nat
  body : String
deriving DecidableEq, Repr

/-- The store puts issued for one message by `update_status_record`:
one put when the record is built, none when required ids are missing. -/
def statusPutOps (nowIso : String) (nowEpoch : Int)
    (msg : SnsMessage) : List StoreOp :=
  match update_status_record nowIso nowEpoch msg with
  | some r => [.putStatus r]
  | none => []

/-- The loop body of `lambda_handler` (update-mvp-status.py lines 24-41):
processes the batch records in order, accumulating issued store
operations and log lines; a raised error (payload parse failure) aborts
the loop and is returned as `some e`. Records not from aws:sns are
skipped; records whose message lacks a truthy jobId are skipped with a
log line. -/
def handlerLoop (nowIso : String) (nowEpoch : Int) :
    List SnsEnvelope → List StoreOp → List String →
      List StoreOp × List String × Option String
  | [], ops, logs => (ops, logs, none)
  | r :: rs, ops, logs =>
    if r.eventSource = "aws:sns" then
      match r.payload with
      | .error e => (ops, logs, some e)
      | .ok msg =>
        if pyTruthy msg.jobId then
          handlerLoop nowIso nowEpoch rs
            (ops
              ++ [.updateJob (msg.jobId.getD "")
                    (update_job_record_parts nowIso msg)]
              ++ statusPutOps nowIso nowEpoch msg)
            (logs ++ ["Successfully updated status for job " ++ msg.jobId.getD ""])
        else
          handlerLoop nowIso nowEpoch rs ops (logs ++ ["No jobId found in message"])
    else
      handlerLoop nowIso nowEpoch rs ops logs

/-- `lambda_handler` (update-mvp-status.py lines 18-53): runs the loop
over the batch and returns the issued store operations, the log lines and
the result object: statusCode 200 on success, 500 when any record's
processing raised. -/
def lambda_handler (nowIso : String) (nowEpoch : Int)
    (records : List SnsEnvelope) :
    List StoreOp × List String × HandlerResult :=
  match handlerLoop nowIso nowEpoch records [] [] with
  | (ops, logs, none) =>
    (ops, logs, { statusCode := 200, body := "Status updated successfully" })
  | (ops, logs, some e) =>
    (ops, logs, { statusCode := 500, body := "Error: " ++ e })

/-- A batch record whose processing raises no error: either it is not an
aws:sns record (it is ignored), or its payload parses. -/
def envelopeOk (r : SnsEnvelope) : Bool :=
  if r.eventSource = "aws:sns" then
    match r.payload with
    | .ok _ => true
    | .error _ => false
  else true

/-! ## fetch-job-data.py embedding -/

mutual
/-- A DynamoDB/JSON-like Python value as held in a job record.  `dec`
is an arbitrary-precision Decimal carrying its decimal string
representation (the value `str` returns on it). -/
inductive PyValue where
  | str (s : String)
  | int (n : Int)
  | dec (s : String)
  | bool (b : Bool)
  | null
  | list (xs : PyList)
  | dict (fs : PyDict)

/-- A Python list of `PyValue`s. -/
inductive PyList where
  | nil
  | cons (hd : PyValue) (tl : PyList)

/-- A Python dict with string keys and `PyValue` values, in insertion
order. -/
inductive PyDict where
  | nil
  | cons (k : String) (v : PyValue) (tl : PyDict)
end

/-- A JSON value as written by `json.dump`. -/
inductive JValue where
  | str (s : String)
  | num (n : Int)
  | bool (b : Bool)
  | null
  | arr (xs : List JValue)
  | obj (fs : List (String × JValue))

/-- Whether a JSON value is a plain number. -/
def JValue.isNum : JValue → Bool
  | .num _ => true
  | _ => false

mutual
/-- The serialization performed by
`json.dump(dict(job_data), f, indent=2, default=str)`
(fetch-job-data.py lines 97-98): JSON-native values are serialized
natively, and a non-native value (a Decimal) goes through the
`default=str` fallback, producing the JSON *string* of its `str`
representation. -/
def pyToJson : PyValue → JValue
  | .str s => .str s
  | .int n => .num n
  | .dec s => .str s
  | .bool b => .bool b
  | .null => .null
  | .list xs => .arr (pyListToJson xs)
  | .dict fs => .obj (pyDictToJson fs)

/-- Pointwise serialization of a Python list. -/
def pyListToJson : PyList → List JValue
  | .nil => []
  | .cons v tl => pyToJson v :: pyListToJson tl

/-- Pointwise serialization of a Python dict. -/
def pyDictToJson : PyDict → List (String × JValue)
  | .nil => []
  | .cons k v tl => (k, pyToJson v) :: pyDictToJson tl
end

/-- Python `str.lower()` (ASCII range, which covers the record data). -/
def pyLower (s : String) : String := ⟨s.data.map Char.toLower⟩

/-- Python `str.replace(old, new)` for single-character arguments. -/
def pyReplaceChar (old new : Char) (s : String) : String :=
  ⟨s.data.map (fun c => if c = old then new else c)⟩

/-- The sanitized-name computation of fetch-job-data.py line 29:
`business_name.lower().replace(' ', '-').replace('_', '-')`. -/
def sanitize (b : String) : String :=
  pyReplaceChar '_' '-' (pyReplaceChar ' ' '-' (pyLower b))

/-- Number of double-quote characters in a string. -/
def countQuotes (s : String) : Nat :=
  (s.data.filter (fun c => c = '"')).length

/-- Splits a character list at newline characters, accumulating the
current line in reverse. -/
def splitLinesAux : List Char → List Char → List String
  | [], acc => [⟨acc.reverse⟩]
  | c :: cs, acc =>
    if c = '\n' then ⟨acc.reverse⟩ :: splitLinesAux cs []
    else splitLinesAux cs (c :: acc)

/-- The lines of a string, split at newline characters. -/
def pyLines (s : String) : List String := splitLinesAux s.data []

/-- The MVP_SPECS.md text rendered by fetch-job-data.py lines 33-56, an
f-string interpolating the business name and the derived repo name
around fixed default feature and technology lists. -/
def mvpSpecsTemplate (business_name repo_name : String) : String :=
  "# MVP Specifications for " ++ business_name
  ++ "\n\n## Business Overview\n- **Business Name**: " ++ business_name
  ++ "\n- **Description**: Modern web application for " ++ business_name
  ++ "\n- **Repository Name**: " ++ repo_name
  ++ "\n\n## Key Features (Default MVP Features)\n- User authentication and registration\n- Dashboard interface\n- Basic CRUD operations\n- Responsive design\n- Modern UI/UX\n\n## Technical Requirements\n- Frontend: React/Next.js with TypeScript\n- Backend: Node.js with Express\n- Database: PostgreSQL or MongoDB\n- Styling: Tailwind CSS\n- Deployment: Vercel\n\n## Development Guidelines\nCreate a modern, responsive web application with clean code architecture and user-friendly interface.\n"

/-- The DEVELOPMENT_INSTRUCTIONS.md text rendered by fetch-job-data.py
lines 59-85. -/
def devInstructionsTemplate (business_name : String) : String :=
  "# Development Instructions for " ++ business_name
  ++ "\n\n## Overview\nBuild a modern MVP web application for " ++ business_name
  ++ " using best practices and modern technologies.\n\n## Key Requirements:\n1. Create a clean, professional interface\n2. Implement user authentication\n3. Build responsive design for mobile and desktop\n4. Use TypeScript for type safety\n5. Follow React/Next.js best practices\n6. Implement proper error handling\n7. Add basic testing\n\n## Tech Stack:\n- Next.js 14+ with TypeScript\n- Tailwind CSS for styling\n- Prisma for database management\n- NextAuth.js for authentication\n- Vercel for deployment\n\n## Deliverables:\n1. Complete source code\n2. README with setup instructions\n3. Deployed application on Vercel\n4. Basic documentation\n"

/-- The job-env.sh text rendered by fetch-job-data.py lines 102-110:
each value is interpolated between double quotes verbatim. -/
def jobEnvTemplate (business_name repo_name sanitized_name user_id product_id : String) :
    String :=
  "#!/bin/bash\nexport BUSINESS_NAME=\"" ++ business_name
  ++ "\"\nexport REPO_NAME=\"" ++ repo_name
  ++ "\"\nexport PRODUCT_DESCRIPTION=\"Modern web application for " ++ business_name
  ++ "\"\nexport USER_EMAIL=\"user@" ++ sanitized_name
  ++ ".com\"\nexport SANITIZED_NAME=\"" ++ sanitized_name
  ++ "\"\nexport USER_ID=\"" ++ user_id
  ++ "\"\nexport PRODUCT_ID=\"" ++ product_id
  ++ "\"\n"

/-- A job record as stored in the primary table: the flat identity
fields the script extracts (strings when present, per the data model),
plus all remaining attributes, including any nested
product/specification maps, as a Python dict. -/
structure JobRecord where
  businessName : Option String
  userId : Option String
  productId : Option String
  rest : PyDict

/-- Prepends an optional string field onto a dict. -/
def PyDict.consOptStr (k : String) (o : Option String) (d : PyDict) : PyDict :=
  match o with
  | some s => PyDict.cons k (.str s) d
  | none => d

/-- The full `dict(job_data)` that fetch-job-data.py serializes: the
identity fields followed by all remaining attributes. -/
def jobRecordDict (r : JobRecord) : PyDict :=
  PyDict.consOptStr "businessName" r.businessName
    (PyDict.consOptStr "userId" r.userId
      (PyDict.consOptStr "productId" r.productId r.rest))

/-- Content of a written artifact: text, or a serialized JSON value. -/
inductive FileContent where
  | text (s : String)
  | json (v : JValue)

/-- A filesystem effect of the fetch script. -/
inductive FsEffect where
  | mkdir (dir : String)
  | write (path : String) (content : FileContent)

/-- `fetch_job_data` (fetch-job-data.py lines 8-116): looks the job up in
the store; when absent, raises (returns the error, with an empty effect
list: nothing was created); when present, derives the default values
from the flat fields, creates the output directory and writes the four
artifacts, in source order. -/
def fetch_job_data (store : String → Option JobRecord)
    (job_id output_dir : String) : List FsEffect × Except String Unit :=
  match store job_id with
  | none => ([], .error ("Job " ++ job_id ++ " not found in DynamoDB"))
  | some r =>
    let business_name := r.businessName.getD "Unknown Business"
    let user_id := r.userId.getD "unknown"
    let product_id := r.productId.getD "unknown"
    let sanitized_name := sanitize business_name
    let repo_name := sanitized_name ++ "-mvp"
    ([.mkdir output_dir,
      .write (output_dir ++ "/MVP_SPECS.md")
        (.text (mvpSpecsTemplate business_name repo_name)),
      .write (output_dir ++ "/DEVELOPMENT_INSTRUCTIONS.md")
        (.text (devInstructionsTemplate business_name)),
      .write (output_dir ++ "/job-data.json")
        (.json (pyToJson (.dict (jobRecordDict r)))),
      .write (output_dir ++ "/job-env.sh")
        (.text (jobEnvTemplate business_name repo_name sanitized_name
          user_id product_id))],
     .ok ())

/-! ## Concrete fixtures used by the counterexamples and witnesses -/

/-- The completion message of the concrete scenario in the spec:
jobId job-123, status completed, a production URL, nothing else. -/
def completionMsg : SnsMessage :=
  { jobId := some "job-123", status := some "completed",
    productionUrl := some "https://x.example" }

/-- A job record whose nested product/specification fields are present
(a product map with a custom feature list) alongside the flat fields. -/
def recNested : JobRecord :=
  { businessName := some "Acme", userId := some "user-1",
    productId := some "prod-1",
    rest := PyDict.cons "product"
      (.dict (PyDict.cons "features"
        (.list (PyList.cons (.str "Custom Feature") PyList.nil)) PyDict.nil))
      PyDict.nil }

/-- The same job record without any nested fields. -/
def recPlain : JobRecord :=
  { businessName := some "Acme", userId := some "user-1",
    productId := some "prod-1", rest := PyDict.nil }

/-- A job record whose business name contains a double-quote character. -/
def recQuote : JobRecord :=
  { businessName := some "A\"B", userId := some "u-1",
    productId := some "p-1", rest := PyDict.nil }

/-- A job record holding an arbitrary-precision decimal attribute. -/
def recDec : JobRecord :=
  { businessName := some "Acme", userId := some "u-1",
    productId := some "p-1",
    rest := PyDict.cons "progress" (.dec "100") PyDict.nil }

/-- A single-record store holding the given record under job-123. -/
def storeOf (r : JobRecord) : String → Option JobRecord :=
  fun id => if id = "job-123" then some r else none

/-- The empty store. -/
def emptyStore : String → Option JobRecord := fun _ => none

/-- A status table already holding a row for job-123 with all three URLs
populated (used to observe that a put overwrites them). -/
def staleStatusTable : String → Option StatusRecord :=
  fun k =>
    if k = "job-123" then
      some
        { projectId := "job-123", jobId := "job-123", status := "building",
          updatedAt := "T-old",
          urls :=
            { production := some "https://old.example",
              staging := some "https://old-staging.example",
              repository := some "https://old-repo.example" }
          userId := some "u-old", businessName := some "Old", ttl := 1 }
    else none

/-! ## Helper lemmas -/

theorem countQuotes_append (a b : String) :
    countQuotes (a ++ b) = countQuotes a + countQuotes b := by
  cases a; cases b
  simp [countQuotes, String.append, List.filter_append]

theorem handlerLoop_isNone_eq_all (nowIso : String) (nowEpoch : Int) :
    ∀ (records : List SnsEnvelope) (ops : List StoreOp) (logs : List String),
      (handlerLoop nowIso nowEpoch records ops logs).2.2.isNone
        = records.all envelopeOk := by
  intro records
  induction records with
  | nil => intro ops logs; rfl
  | cons r rs ih =>
    intro ops logs
    by_cases h : r.eventSource = "aws:sns"
    · cases hp : r.payload with
      | error e => simp [handlerLoop, envelopeOk, h, hp]
      | ok msg =>
        by_cases hj : pyTruthy msg.jobId
        · simp [handlerLoop, envelopeOk, h, hp, hj, ih]
        · simp [handlerLoop, envelopeOk, h, hp, hj, ih]
    · simp [handlerLoop, envelopeOk, h, ih]

/-! ## Claim theorems -/

/-- Claim C1, counterexample: calling the status updater with only a
jobId and no optional field still issues a store update call (the
accumulated expression always contains updatedAt), refuting the claim
that no store call is made. -/
theorem C1_counterexample :
    update_job_status_calls "2024-01-01T00:00:00" noOptionalArgs ≠ 0 ∧
    update_job_status_parts "2024-01-01T00:00:00" noOptionalArgs
      = [("updatedAt", .str "2024-01-01T00:00:00")] := by
  constructor <;> decide

/-- Claim C1 as amended: for every call to the job status updater that
supplies a jobId and none of the optional fields, exactly one store
update call is issued, and it touches only the always-set updatedAt
timestamp (the empty-accumulator no-op branch is unreachable). -/
theorem C1_amended (now : String) :
    update_job_status_parts now noOptionalArgs = [("updatedAt", .str now)] ∧
    update_job_status_calls now noOptionalArgs = 1 := by
  constructor <;> rfl

/-- Claim C2 (code bug), evaluation at the failing input: the single
partial update that `update_job_record` issues for the completion
message mixes flat top-level attribute paths (status, progress,
currentStep) with nested namespaced paths (timestamps.completedAt,
urls.production) in the same update operation. -/
theorem C2_eval :
    (update_job_record_parts "T0" completionMsg).map Prod.fst
      = ["status", "timestamps.completedAt", "progress", "currentStep",
         "urls.production"] ∧
    isNestedPath "status" = false ∧
    isNestedPath "progress" = false ∧
    isNestedPath "currentStep" = false ∧
    isNestedPath "timestamps.completedAt" = true ∧
    isNestedPath "urls.production" = true := by
  refine ⟨rfl, ?_, ?_, ?_, ?_, ?_⟩ <;> decide

/-- Claim C3, counterexample: for a job record that does contain nested
product/specification fields (a product map with the feature "Custom
Feature"), fetch-and-render produces exactly the same rendered
specification, instructions and environment artifacts as for the record
without them, and the specification document is the default template
(synthesized repo name, fixed default feature list): the nested fields
are not used. -/
theorem C3_counterexample :
    ((fetch_job_data (storeOf recNested) "job-123" "/out").1.getD 1 (.mkdir "")
      = (fetch_job_data (storeOf recPlain) "job-123" "/out").1.getD 1 (.mkdir "")) ∧
    ((fetch_job_data (storeOf recNested) "job-123" "/out").1.getD 2 (.mkdir "")
      = (fetch_job_data (storeOf recPlain) "job-123" "/out").1.getD 2 (.mkdir "")) ∧
    ((fetch_job_data (storeOf recNested) "job-123" "/out").1.getD 4 (.mkdir "")
      = (fetch_job_data (storeOf recPlain) "job-123" "/out").1.getD 4 (.mkdir "")) ∧
    ((fetch_job_data (storeOf recNested) "job-123" "/out").1.getD 1 (.mkdir "")
      = .write "/out/MVP_SPECS.md"
          (.text (mvpSpecsTemplate "Acme" "acme-mvp"))) := by
  refine ⟨rfl, rfl, rfl, rfl⟩

/-- Claim C3 as amended: the rendered artifacts (specification document,
development instructions, environment file) are a function of the flat
businessName/userId/productId fields alone; nested product/specification
fields never influence them (they only appear verbatim in the raw JSON
dump), so the derived defaults are used unconditionally. -/
theorem C3_amended (store store' : String → Option JobRecord)
    (id dir : String) (r r' : JobRecord)
    (h : store id = some r) (h' : store' id = some r')
    (hb : r.businessName = r'.businessName)
    (hu : r.userId = r'.userId) (hp : r.productId = r'.productId) :
    ((fetch_job_data store id dir).1.getD 1 (.mkdir "")
      = (fetch_job_data store' id dir).1.getD 1 (.mkdir "")) ∧
    ((fetch_job_data store id dir).1.getD 2 (.mkdir "")
      = (fetch_job_data store' id dir).1.getD 2 (.mkdir "")) ∧
    ((fetch_job_data store id dir).1.getD 4 (.mkdir "")
      = (fetch_job_data store' id dir).1.getD 4 (.mkdir "")) := by
  simp only [fetch_job_data, h, h', hb, hu, hp]
  exact ⟨rfl, rfl, rfl⟩

/-- Witness for the amended claim C3 at a concrete input: the record
with nested product fields and the record without them render the same
three artifacts. -/
theorem C3_amended_witness :
    ((fetch_job_data (storeOf recNested) "job-123" "/o").1.getD 1 (.mkdir "")
      = (fetch_job_data (storeOf recPlain) "job-123" "/o").1.getD 1 (.mkdir "")) ∧
    ((fetch_job_data (storeOf recNested) "job-123" "/o").1.getD 2 (.mkdir "")
      = (fetch_job_data (storeOf recPlain) "job-123" "/o").1.getD 2 (.mkdir "")) ∧
    ((fetch_job_data (storeOf recNested) "job-123" "/o").1.getD 4 (.mkdir "")
      = (fetch_job_data (storeOf recPlain) "job-123" "/o").1.getD 4 (.mkdir "")) := by
  exact C3_amended (storeOf recNested) (storeOf recPlain) "job-123" "/o"
    recNested recPlain rfl rfl rfl rfl rfl

/-- Claim C4: for every subset of optional status fields supplied to the
status updater (supplied meaning a truthy value, following the source),
at most one store update call is issued, and the attribute paths it
touches are exactly those corresponding to the supplied fields plus the
status-derived flat-shape fields: startedAt when status is IN_PROGRESS,
completedAt when status is COMPLETED, and updatedAt always. -/
theorem C4_frame (now : String) (a : StatusUpdateArgs) :
    (update_job_status_parts now a).map Prod.fst = suppliedAndDerivedPaths a ∧
    update_job_status_calls now a ≤ 1 := by
  constructor
  · unfold update_job_status_parts suppliedAndDerivedPaths
    simp only [List.map_append,
      apply_ite (List.map (Prod.fst : String × AttrValue → String)),
      List.map_cons, List.map_nil]
  · unfold update_job_status_calls
    split <;> simp

/-- Claim C5, counterexample: for the business name A"B (which contains
a double quote), the job-env.sh artifact interpolates the value
verbatim, and its BUSINESS_NAME export line has three double-quote
characters: the quoting is unbalanced, refuting the claim that every
value is double-quote-escaped. -/
theorem C5_counterexample :
    ((fetch_job_data (storeOf recQuote) "job-123" "/out").1.getD 4 (.mkdir "")
      = .write "/out/job-env.sh"
          (.text (jobEnvTemplate "A\"B" "a\"b-mvp" "a\"b" "u-1" "p-1"))) ∧
    ((pyLines (jobEnvTemplate "A\"B" "a\"b-mvp" "a\"b" "u-1" "p-1")).getD 1 ""
      = "export BUSINESS_NAME=\"A\"B\"") ∧
    countQuotes "export BUSINESS_NAME=\"A\"B\"" % 2 = 1 := by
  refine ⟨rfl, by decide, by decide⟩

/-- Claim C5 as amended: the values written into job-env.sh are
interpolated verbatim between fixed double-quote delimiters with no
escaping: the artifact contains exactly the 14 fixed delimiter quotes
plus every double quote occurring in the values themselves (the business
name and the sanitized name each appear twice), so quoting stays
balanced only for values free of double quotes. -/
theorem C5_amended (b r s u p : String) :
    countQuotes (jobEnvTemplate b r s u p)
      = 14 + countQuotes b + countQuotes r + countQuotes b + countQuotes s
        + countQuotes s + countQuotes u + countQuotes p := by
  have l0 : countQuotes "#!/bin/bash\nexport BUSINESS_NAME=\"" = 1 := by decide
  have l1 : countQuotes "\"\nexport REPO_NAME=\"" = 2 := by decide
  have l2 : countQuotes "\"\nexport PRODUCT_DESCRIPTION=\"Modern web application for "
      = 2 := by decide
  have l3 : countQuotes "\"\nexport USER_EMAIL=\"user@" = 2 := by decide
  have l4 : countQuotes ".com\"\nexport SANITIZED_NAME=\"" = 2 := by decide
  have l5 : countQuotes "\"\nexport USER_ID=\"" = 2 := by decide
  have l6 : countQuotes "\"\nexport PRODUCT_ID=\"" = 2 := by decide
  have l7 : countQuotes "\"\n" = 1 := by decide
  simp only [jobEnvTemplate, countQuotes_append, l0, l1, l2, l3, l4, l5, l6, l7]
  omega

/-- Claim C6, counterexample: for the completion message of the
scenario, the update sets the record's status attribute to the literal
message status "completed", not to "COMPLETED" (only currentStep is set
to "COMPLETED"), refuting the claim that the scenario sets
status=COMPLETED. -/
theorem C6_counterexample :
    (update_job_record_parts "T0" completionMsg).getD 0 ("", .str "")
      = ("status", AttrValue.str "completed") ∧
    AttrValue.str "completed" ≠ AttrValue.str "COMPLETED" := by
  constructor
  · rfl
  · decide

/-- Claim C6 as amended: processing the completion message jobId
job-123, status completed, productionUrl https x.example issues one
job-record update setting status to the message's literal status
"completed", progress to 100, currentStep to "COMPLETED", the nested
completion timestamp, and urls.production to the production URL; and it
writes a status-table row keyed by projectId (falling back to job-123)
whose ttl is exactly 30 days (2592000 seconds) after the current time. -/
theorem C6_amended (nowIso : String) (nowEpoch : Int) :
    update_job_record_parts nowIso completionMsg
      = [("status", .str "completed"),
         ("timestamps.completedAt", .str nowIso),
         ("progress", .int 100),
         ("currentStep", .str "COMPLETED"),
         ("urls.production", .str "https://x.example")] ∧
    update_status_record nowIso nowEpoch completionMsg
      = some
          { projectId := "job-123", jobId := "job-123",
            status := "completed", updatedAt := nowIso,
            urls :=
              { production := some "https://x.example",
                staging := none, repository := none }
            userId := none, businessName := none,
            ttl := nowEpoch + 2592000 } := by
  constructor <;> rfl

/-- Claim C7: for every jobId absent from the store, fetch-and-render
raises a not-found error and performs no filesystem effect: no artifact
is written and the output directory is not created. -/
theorem C7_notfound (store : String → Option JobRecord)
    (job_id output_dir : String) (h : store job_id = none) :
    fetch_job_data store job_id output_dir
      = ([], .error ("Job " ++ job_id ++ " not found in DynamoDB")) := by
  simp only [fetch_job_data, h]

/-- Witness for claim C7 at a concrete input: the empty store. -/
theorem C7_notfound_witness :
    fetch_job_data emptyStore "job-123" "/out"
      = ([], .error "Job job-123 not found in DynamoDB") :=
  C7_notfound emptyStore "job-123" "/out" rfl

/-- Claim C8: the notification handler returns the success-coded result
object exactly when no record's processing raises (records not from
aws:sns are ignored, and a parse failure of an aws:sns record's payload
is the raising case), and it returns the failure-coded 500 result for
the whole batch otherwise; a record whose payload lacks a truthy jobId
is skipped with a log line, issuing no store operation and not failing
the batch. -/
theorem C8_handler (nowIso : String) (nowEpoch : Int)
    (records : List SnsEnvelope) :
    ((lambda_handler nowIso nowEpoch records).2.2.statusCode
      = if records.all envelopeOk then 200 else 500) ∧
    (∀ (msg : SnsMessage), pyTruthy msg.jobId = false →
      ∀ (rs : List SnsEnvelope) (ops : List StoreOp) (logs : List String),
        handlerLoop nowIso nowEpoch
            ({ eventSource := "aws:sns", payload := .ok msg } :: rs) ops logs
          = handlerLoop nowIso nowEpoch rs ops
              (logs ++ ["No jobId found in message"])) := by
  have hall := handlerLoop_isNone_eq_all nowIso nowEpoch records [] []
  constructor
  · rcases hloop : handlerLoop nowIso nowEpoch records [] [] with ⟨ops, logs, err⟩
    rw [hloop] at hall
    unfold lambda_handler
    rw [hloop]
    cases err with
    | none =>
      simp only [Option.isNone] at hall
      rw [← hall]
      rfl
    | some e =>
      simp only [Option.isNone] at hall
      rw [← hall]
      rfl
  · intro msg hmsg rs ops logs
    simp [handlerLoop, hmsg]

/-- Witness for claim C8 at a concrete input: a batch with one aws:sns
record whose message has no jobId is skipped with the log line and the
handler succeeds with statusCode 200. -/
theorem C8_handler_witness :
    ((lambda_handler "T" 0
        [{ eventSource := "aws:sns", payload := .ok {} }]).2.2.statusCode = 200) ∧
    (handlerLoop "T" 0
        [{ eventSource := "aws:sns", payload := .ok {} }] [] []
      = handlerLoop "T" 0 [] [] ["No jobId found in message"]) := by
  have h := C8_handler "T" 0 [{ eventSource := "aws:sns", payload := .ok {} }]
  constructor
  · rw [h.1]; rfl
  · exact h.2 {} rfl [] [] []

/-- Claim C9, counterexample: in the job-data.json artifact, the
arbitrary-precision decimal attribute progress=Decimal(100) is
serialized through the default=str fallback as the JSON string "100",
not as a plain JSON number, refuting the claim. -/
theorem C9_counterexample :
    ((fetch_job_data (storeOf recDec) "job-123" "/out").1.getD 3 (.mkdir "")
      = .write "/out/job-data.json"
          (.json (.obj
            [("businessName", .str "Acme"), ("userId", .str "u-1"),
             ("productId", .str "p-1"), ("progress", JValue.str "100")]))) ∧
    JValue.isNum (JValue.str "100") = false := by
  exact ⟨rfl, rfl⟩

/-- Claim C9 as amended: in the job-data.json artifact written by
fetch-and-render, every arbitrary-precision decimal of the record is
converted by the default=str fallback to the JSON string of its decimal
representation, not to a plain JSON number. -/
theorem C9_amended (store : String → Option JobRecord)
    (id dir : String) (r : JobRecord) (h : store id = some r) :
    ((fetch_job_data store id dir).1.getD 3 (.mkdir "")
      = .write (dir ++ "/job-data.json")
          (.json (pyToJson (.dict (jobRecordDict r))))) ∧
    (∀ s, pyToJson (.dec s) = .str s) ∧
    (∀ s, (pyToJson (.dec s)).isNum = false) := by
  simp only [fetch_job_data, h]
  exact ⟨rfl, fun s => rfl, fun s => rfl⟩

/-- Witness for the amended claim C9 at a concrete input. -/
theorem C9_amended_witness :
    ((fetch_job_data (storeOf recDec) "job-123" "/o").1.getD 3 (.mkdir "")
      = .write "/o/job-data.json"
          (.json (pyToJson (.dict (jobRecordDict recDec))))) ∧
    (∀ s, pyToJson (.dec s) = .str s) ∧
    (∀ s, (pyToJson (.dec s)).isNum = false) :=
  C9_amended (storeOf recDec) "job-123" "/o" recDec rfl

/-- Claim C10: every Status Record the notification handler writes has
a urls map with exactly the keys production, staging and repository,
each holding the message's URL or an explicit null when absent; and
because the write is a full-item put, the row previously stored under
the record's projectId is overwritten wholesale. -/
theorem C10_status_urls (nowIso : String) (nowEpoch : Int)
    (msg : SnsMessage) (table : String → Option StatusRecord)
    (r : StatusRecord)
    (h : update_status_record nowIso nowEpoch msg = some r) :
    r.urls = { production := msg.productionUrl, staging := msg.stagingUrl,
               repository := msg.repoUrl } ∧
    put_status_item table r r.projectId = some r := by
  simp only [update_status_record] at h
  split at h
  · injection h with h2
    subst h2
    exact ⟨rfl, by simp [put_status_item]⟩
  · cases h

/-- Witness for claim C10 at a concrete input: the completion message's
status row stores the production URL, explicit nulls for the staging and
repository URLs, and the put replaces the stale row previously stored
under job-123 (whose three URLs were all populated). -/
theorem C10_status_urls_witness :
    (({ projectId := "job-123", jobId := "job-123", status := "completed",
        updatedAt := "T",
        urls := { production := some "https://x.example", staging := none,
                  repository := none }
        userId := none, businessName := none,
        ttl := 2592000 } : StatusRecord).urls
      = { production := some "https://x.example", staging := none,
          repository := none }) ∧
    put_status_item staleStatusTable
        { projectId := "job-123", jobId := "job-123", status := "completed",
          updatedAt := "T",
          urls := { production := some "https://x.example", staging := none,
                    repository := none }
          userId := none, businessName := none, ttl := 2592000 }
        "job-123"
      = some
          { projectId := "job-123", jobId := "job-123", status := "completed",
            updatedAt := "T",
            urls := { production := some "https://x.example", staging := none,
                      repository := none }
            userId := none, businessName := none, ttl := 2592000 } := by
  have h := C10_status_urls "T" 0 completionMsg staleStatusTable
    { projectId := "job-123", jobId := "job-123", status := "completed",
      updatedAt := "T",
      urls := { production := some "https://x.example", staging := none,
                repository := none }
      userId := none, businessName := none, ttl := 2592000 } rfl
  exact ⟨h.1, h.2⟩

end MvpToolkit
